import Mathlib

/-!
Shallow embedding of `app.py`, a small Flask facade over an external media
extraction engine (`yt_dlp`) and transcoder (`ffmpeg`).

Modelling conventions:
* Optional HTTP parameters and optional metadata fields are `Option String`
  (`none` = parameter absent / JSON null).  Python truthiness on such values
  is `pyTruthy` (`None` and `""` are falsy).
* The external extraction engine is an oracle (`EngineResult`): either the
  metadata it would return, or the message of the exception it would raise.
* Filesystem effects of the `/download` handler (scratch directory lifecycle,
  whether the predicted output file exists, the directory listing used by the
  fallback, whether `shutil.rmtree` raises) are part of a `DownloadEnv`
  oracle; the handler returns, besides the HTTP response, a `DState` record
  of its observable effects (directory created / still existing at return,
  engine invoked and with which format selector and postprocessor).
* Strings are Lean `String`s (lists of characters).  `werkzeug`'s
  `secure_filename` is modelled on its ASCII fragment: for ASCII input the
  `unicodedata.normalize("NFKD", ·).encode("ascii", "ignore")` step of the
  original is the identity, and on POSIX `os.sep = "/"`, `os.path.altsep =
  None`.  Python's `str.strip()` is modelled as stripping the ASCII
  whitespace characters recognised by `Char.isWhitespace`.
-/

/-- One entry of the recommended-formats catalog (a dict literal in
`build_format_options`). -/
structure FormatOption where
  id : String
  label : String
  ext : String
  type : String
deriving DecidableEq

/-- The metadata dictionary returned by `ydl.extract_info`, restricted to the
keys `app.py` reads.  A `none` field models a missing or `None` entry. -/
structure ExtractInfo where
  title : Option String
  uploader : Option String
  duration : Option Nat
  thumbnail : Option String
  webpage_url : Option String
deriving DecidableEq

/-- Outcome of a call into the extraction engine: metadata, or the message of
the exception it raised. -/
inductive EngineResult where
  | ok : ExtractInfo → EngineResult
  | err : String → EngineResult
deriving DecidableEq

/-- The JSON (or file) body of an HTTP response produced by the handlers. -/
inductive Body where
  | errorBody : String → Body
  | infoBody : Option String → Option String → Option Nat → Option String →
      Option String → List FormatOption → Body
  | fileBody : String → Body
deriving DecidableEq

/-- An HTTP response: status code plus body.  For `fileBody` the string is the
`download_name` sent in the Content-Disposition header. -/
structure Response where
  status : Nat
  body : Body
deriving DecidableEq

/-- Environment oracle for one `/download` request: engine outcome, whether
the predicted filename exists on disk after download, the regular files found
in the scratch directory by the fallback listing, and whether
`shutil.rmtree` raises. -/
structure DownloadEnv where
  engine : EngineResult
  preparedExists : Bool
  tempFiles : List String
  rmtreeFails : Bool

/-- Observable effects of one `/download` invocation. -/
structure DState where
  tempCreated : Bool
  tempExistsAtReturn : Bool
  engineInvoked : Bool
  engineFormat : Option String
  postprocessorKey : Option String
deriving DecidableEq

/-- Effect record of a request rejected before the scratch directory is
created: nothing created, engine never invoked. -/
def noDState : DState :=
  { tempCreated := false, tempExistsAtReturn := false, engineInvoked := false,
    engineFormat := none, postprocessorKey := none }

/-- Python truthiness of an optional string: `None` and `""` are falsy. -/
def pyTruthy : Option String → Bool
  | none => false
  | some s => s != ""

/-- Python `a or b` on two optional strings (as in
`data.get("url") or request.args.get("url")`). -/
def pyOrOpt (a b : Option String) : Option String :=
  if pyTruthy a then a else b

/-- Python `a or b` where the right operand is a (truthy) string literal, as
in `suggested_name or info.get("title") or "video"`. -/
def pyOrStr (a : Option String) (b : String) : String :=
  if pyTruthy a then a.getD "" else b

/-- Python `str.lower()`, character by character (the membership test it
feeds compares against ASCII literals, for which this agrees with Python). -/
def pyLower (s : String) : String :=
  String.mk (s.data.map Char.toLower)

/-- `request.args.get("audio_only", "").lower() in ("1", "true", "yes")`. -/
def audio_only_truthy (v : Option String) : Bool :=
  let s := pyLower (v.getD "")
  s == "1" || s == "true" || s == "yes"

/-- The characters removed by `clean_filename`'s regular expression
`[\\/*?:"<>|]`. -/
def hostileChars : List Char :=
  ['\\', '/', '*', '?', ':', '\x22', '<', '>', '|']

/-- Drop the characters satisfying `p` from both ends of a list (Python's
`str.strip` family). -/
def stripWhile (p : Char → Bool) (l : List Char) : List Char :=
  ((l.dropWhile p).reverse.dropWhile p).reverse

/-- `clean_filename` from `app.py`: remove the path-hostile characters, strip
surrounding whitespace, truncate to 200 characters. -/
def clean_filename (s : String) : String :=
  let s1 := s.data.filter (fun c => !(hostileChars.contains c))
  let s2 := stripWhile Char.isWhitespace s1
  String.mk (s2.take 200)

/-- The character class kept by `werkzeug`'s `_filename_ascii_strip_re`
(everything outside `[A-Za-z0-9_.-]` is deleted). -/
def allowedFilenameChar (c : Char) : Bool :=
  c.isAlpha || c.isDigit || c == '_' || c == '.' || c == '-'

/-- Python `str.split()` with no separator: split on runs of whitespace,
discarding empty pieces.  The accumulator holds the current word reversed. -/
def splitWsAux : List Char → List Char → List (List Char)
  | [], acc => if acc.isEmpty then [] else [acc.reverse]
  | c :: rest, acc =>
    if c.isWhitespace then
      if acc.isEmpty then splitWsAux rest []
      else acc.reverse :: splitWsAux rest []
    else splitWsAux rest (c :: acc)

/-- Python `"_".join(words)`. -/
def joinUnderscore : List (List Char) → List Char
  | [] => []
  | [w] => w
  | w :: ws => w ++ '_' :: joinUnderscore ws

/-- `werkzeug`'s `_windows_device_files` set. -/
def windowsDeviceFiles : List String :=
  ["CON", "PRN", "AUX", "NUL"] ++
    (List.range 10).map (fun i => "COM" ++ toString i) ++
    (List.range 10).map (fun i => "LPT" ++ toString i)

/-- `os.name` on the modelled deployment platform (POSIX, consistent with
`os.sep = "/"` and `os.path.altsep = None` above). -/
def os_name : String := "posix"

/-- `werkzeug.utils.secure_filename`, ASCII fragment (see the header comment):
replace the path separator by a space, join the whitespace-split words with
underscores, delete every character outside `[A-Za-z0-9_.-]`, strip leading
and trailing `.`/`_`, and — only when `os.name == "nt"` — prefix an
underscore when the part before the first dot is a reserved Windows device
name.  On the POSIX platform modelled here that last branch is dead. -/
def secure_filename (filename : String) : String :=
  let l0 := filename.data.map (fun c => if c == '/' then ' ' else c)
  let l1 := joinUnderscore (splitWsAux l0 [])
  let l2 := l1.filter allowedFilenameChar
  let l3 := stripWhile (fun c => c == '.' || c == '_') l2
  let name := String.mk l3
  if os_name == "nt" && name != "" &&
      windowsDeviceFiles.contains
        (String.mk ((l3.takeWhile (fun c => c != '.')).map Char.toUpper)) then
    "_" ++ name
  else
    name

/-- `DESIRED_HEIGHTS` from `app.py`. -/
def DESIRED_HEIGHTS : List Nat := [1080, 720, 480, 360, 240, 144]

/-- The order-preserving deduplication-by-`id` loop at the end of
`build_format_options` (`seen` set plus `final` list). -/
def dedupBySeen : List String → List FormatOption → List FormatOption
  | _, [] => []
  | seen, f :: rest =>
    if seen.contains f.id then dedupBySeen seen rest
    else f :: dedupBySeen (f.id :: seen) rest

/-- `build_format_options` from `app.py`.  The metadata argument is accepted,
as in the source, but never read. -/
def build_format_options (_info : ExtractInfo) : List FormatOption :=
  let formats :=
    DESIRED_HEIGHTS.map (fun h =>
      { id := "bestvideo[height<=" ++ toString h ++ "]+bestaudio/best[height<=" ++
          toString h ++ "]"
        label := toString h ++ "p"
        ext := "mp4"
        type := "video" : FormatOption }) ++
    [{ id := "bestaudio", label := "MP3 (audio only)", ext := "mp3",
       type := "audio" : FormatOption }]
  dedupBySeen [] formats

/-- The `/fetch_info` handler.  `jsonUrl` is `data.get("url")` of the parsed
JSON body (`none` when the body is absent, not JSON, or lacks the key),
`argsUrl` is `request.args.get("url")`.  The second component records whether
the extraction engine was invoked. -/
def fetch_info (jsonUrl argsUrl : Option String) (engine : EngineResult) :
    Response × Bool :=
  let url := pyOrOpt jsonUrl argsUrl
  if pyTruthy url = false then
    ({ status := 400, body := .errorBody "Missing \x27url\x27 parameter" }, false)
  else
    match engine with
    | .err e =>
      ({ status := 500, body := .errorBody ("Failed to extract info: " ++ e) }, true)
    | .ok info =>
      ({ status := 200,
         body := .infoBody info.title info.uploader info.duration info.thumbnail
           info.webpage_url (build_format_options info) }, true)

/-- Lines 189-190 of `app.py`: the attachment filename base,
`secure_filename(clean_filename(suggested_name or info.get("title") or
"video"))`. -/
def derive_base (suggested_name title : Option String) : String :=
  secure_filename (clean_filename (pyOrStr suggested_name (pyOrStr title "video")))

/-- The `/download` handler.  Query parameters come first, then the
environment oracle; the result is the HTTP response paired with the record of
observable effects (the `finally` block always runs `shutil.rmtree`, whose
failure is swallowed, so the scratch directory survives exactly when
`rmtreeFails`). -/
def download (url format_id suggested_name audio_only : Option String)
    (env : DownloadEnv) : Response × DState :=
  let audio_only_flag := audio_only_truthy audio_only
  if (pyTruthy url && pyTruthy format_id) = false then
    ({ status := 400,
       body := .errorBody "Missing \x27url\x27 or \x27format_id\x27 query parameters" },
     noDState)
  else
    let want_mp3 := audio_only_flag || format_id == some "bestaudio"
    let engineFormat := if want_mp3 then some "bestaudio" else format_id
    let postKey := if want_mp3 then "FFmpegExtractAudio" else "FFmpegVideoConvertor"
    let output_ext := if want_mp3 then "mp3" else "mp4"
    let resp : Response :=
      match env.engine with
      | .err e => { status := 500, body := .errorBody ("Download failed: " ++ e) }
      | .ok info =>
        if !env.preparedExists && env.tempFiles.isEmpty then
          { status := 500, body := .errorBody "Download completed but file not found" }
        else
          let base := derive_base suggested_name info.title
          { status := 200, body := .fileBody (base ++ ("." ++ output_ext)) }
    (resp,
     { tempCreated := true, tempExistsAtReturn := env.rmtreeFails,
       engineInvoked := true, engineFormat := engineFormat,
       postprocessorKey := some postKey })

/-! ## Helper lemmas about the filename pipeline -/

/-- Every successful (`fileBody`) response of the `/download` handler carries
the name `derive_base suggested_name title ++ "." ++ ext`, where `ext` is
"mp3" exactly on the audio path (`audio_only` truthy or the sentinel
`format_id`), and `title` is the engine-reported title. -/
theorem download_fileBody_shape (url fid fn ao : Option String) (env : DownloadEnv)
    (name : String)
    (h : (download url fid fn ao env).1.body = Body.fileBody name) :
    ∃ t : Option String,
      name = derive_base fn t ++
        ("." ++ (if audio_only_truthy ao || fid == some "bestaudio"
                 then "mp3" else "mp4")) := by
  simp only [download] at h
  split at h
  · exact absurd h (by simp)
  · split at h
    · exact absurd h (by simp)
    · split at h
      · exact absurd h (by simp)
      · exact ⟨_, (Body.fileBody.injEq _ _ ▸ h).symm⟩

/-- Concrete metadata fixture: the spec's example source ("My Clip", 125s). -/
def exInfo : ExtractInfo where
  title := some "My Clip"
  uploader := some "Someone"
  duration := some 125
  thumbnail := none
  webpage_url := some "https://example.test/watch?v=abc"

/-- Concrete environment fixture: engine succeeds on `exInfo`, predicted file
exists, deletion succeeds. -/
def exEnvOk : DownloadEnv where
  engine := .ok exInfo
  preparedExists := true
  tempFiles := []
  rmtreeFails := false

/-- Concrete environment fixture: engine raises "boom". -/
def exEnvErr : DownloadEnv where
  engine := .err "boom"
  preparedExists := false
  tempFiles := []
  rmtreeFails := false

/-! ## Claim theorems -/

/-- C1: for every input URL and every metadata result, the `formats` list of a
successful `/fetch_info` response has exactly 7 entries in the fixed order
[1080p, 720p, 480p, 360p, 240p, 144p, MP3 (audio only)], has no two entries
with the same selector string, and is independent of the queried source's
metadata. -/
theorem C1_fixed_formats_catalog (info info2 : ExtractInfo)
    (jsonUrl argsUrl : Option String)
    (h : pyTruthy (pyOrOpt jsonUrl argsUrl) = true) :
    (build_format_options info).map (fun f => f.label)
        = ["1080p", "720p", "480p", "360p", "240p", "144p", "MP3 (audio only)"] ∧
    (build_format_options info).length = 7 ∧
    ((build_format_options info).map (fun f => f.id)).Nodup ∧
    build_format_options info = build_format_options info2 ∧
    (fetch_info jsonUrl argsUrl (.ok info)).1
      = { status := 200,
          body := .infoBody info.title info.uploader info.duration info.thumbnail
            info.webpage_url (build_format_options info) } := by
  refine ⟨rfl, rfl, ?_, rfl, ?_⟩
  · rw [show build_format_options info
        = build_format_options ⟨none, none, none, none, none⟩ from rfl]
    decide
  · simp [fetch_info, h]

/-- Witness for C1 at a concrete metadata result and request. -/
theorem C1_witness :
    (build_format_options exInfo).length = 7 ∧
    (fetch_info (some "https://example.test/watch?v=abc") none (.ok exInfo)).1
      = { status := 200,
          body := .infoBody (some "My Clip") (some "Someone") (some 125) none
            (some "https://example.test/watch?v=abc") (build_format_options exInfo) } := by
  have h := C1_fixed_formats_catalog exInfo ⟨none, none, none, none, none⟩
    (some "https://example.test/watch?v=abc") none (by decide)
  exact ⟨h.2.1, h.2.2.2.2⟩

/-- C2: for every `/download` request passing parameter validation, on every
exit path the scratch directory is created and (when the deletion itself does
not fail) no longer exists when the handler returns; a deletion failure never
changes the response sent to the caller. -/
theorem C2_scratch_dir_cleanup (url fid fn ao : Option String) (env : DownloadEnv)
    (h : (pyTruthy url && pyTruthy fid) = true) :
    (download url fid fn ao env).2.tempCreated = true ∧
    (download url fid fn ao { env with rmtreeFails := false }).2.tempExistsAtReturn
      = false ∧
    (download url fid fn ao { env with rmtreeFails := true }).1
      = (download url fid fn ao { env with rmtreeFails := false }).1 := by
  obtain ⟨eng, pe, tf, rf⟩ := env
  cases eng <;> simp [download, h]

/-- Witness for C2: a validated request whose engine call fails. -/
theorem C2_witness :
    (download (some "https://example.test/v") (some "best") none none
        exEnvErr).2.tempCreated = true ∧
    (download (some "https://example.test/v") (some "best") none none
        exEnvErr).2.tempExistsAtReturn = false :=
  have h := C2_scratch_dir_cleanup (some "https://example.test/v") (some "best")
    none none exEnvErr (by decide)
  ⟨h.1, h.2.1⟩

/-- C3: a successful `/download` serves a filename ending in ".mp3" exactly
when `format_id` is the sentinel "bestaudio" or the `audio_only` flag is
truthy, and in ".mp4" otherwise. -/
theorem C3_attachment_extension (url fid fn ao : Option String) (env : DownloadEnv)
    (name : String)
    (h : (download url fid fn ao env).1.body = Body.fileBody name) :
    ((audio_only_truthy ao || fid == some "bestaudio") = true →
      ∃ b : String, name = b ++ ".mp3") ∧
    ((audio_only_truthy ao || fid == some "bestaudio") = false →
      ∃ b : String, name = b ++ ".mp4") := by
  obtain ⟨t, ht⟩ := download_fileBody_shape url fid fn ao env name h
  constructor
  · intro hc
    rw [hc] at ht
    exact ⟨derive_base fn t, by rw [ht]; rfl⟩
  · intro hc
    rw [hc] at ht
    exact ⟨derive_base fn t, by rw [ht]; rfl⟩

/-- Witness for C3 at a concrete audio-path request. -/
theorem C3_witness : ∃ b : String, "My_Clip.mp3" = b ++ ".mp3" :=
  (C3_attachment_extension (some "https://example.test/v") (some "bestaudio") none none
      exEnvOk "My_Clip.mp3" (by decide)).1 (by decide)

/-- C4: when the extraction engine raises, the endpoint returns HTTP 500 with
a JSON error body carrying the engine's message verbatim — `/fetch_info` as
"Failed to extract info: <msg>" and `/download` as "Download failed: <msg>";
the missing-output case also surfaces as a 500 error, and only the
scratch-directory deletion outcome is swallowed (it never changes the
response). -/
theorem C4_engine_errors_surfaced (msg : String)
    (jsonUrl argsUrl url fid fn ao : Option String) (env : DownloadEnv)
    (info : ExtractInfo)
    (h1 : pyTruthy (pyOrOpt jsonUrl argsUrl) = true)
    (h2 : (pyTruthy url && pyTruthy fid) = true)
    (henv : env.engine = .err msg) :
    (fetch_info jsonUrl argsUrl (.err msg)).1
      = { status := 500, body := .errorBody ("Failed to extract info: " ++ msg) } ∧
    (download url fid fn ao env).1
      = { status := 500, body := .errorBody ("Download failed: " ++ msg) } ∧
    (download url fid fn ao { env with rmtreeFails := true }).1
      = (download url fid fn ao { env with rmtreeFails := false }).1 ∧
    (download url fid fn ao
        { engine := .ok info, preparedExists := false, tempFiles := [],
          rmtreeFails := env.rmtreeFails }).1
      = { status := 500, body := .errorBody "Download completed but file not found" } := by
  obtain ⟨eng, pe, tf, rf⟩ := env
  cases eng with
  | ok i => exact absurd henv (by simp)
  | err e =>
    have hmsg : e = msg := by
      have := henv
      simp only [EngineResult.err.injEq] at this
      exact this
    subst hmsg
    refine ⟨by simp [fetch_info, h1], by simp [download, h2], by simp [download, h2], ?_⟩
    simp [download, h2]

/-- Witness for C4 at a concrete failing engine call. -/
theorem C4_witness :
    (fetch_info (some "https://example.test/v") none (.err "boom")).1
      = { status := 500, body := .errorBody ("Failed to extract info: " ++ "boom") } ∧
    (download (some "https://example.test/v") (some "best") none none exEnvErr).1
      = { status := 500, body := .errorBody ("Download failed: " ++ "boom") } :=
  have h := C4_engine_errors_surfaced "boom" (some "https://example.test/v") none
    (some "https://example.test/v") (some "best") none none exEnvErr exInfo
    (by decide) (by decide) (by decide)
  ⟨h.1, h.2.1⟩

/-- C5: a `/fetch_info` request with no url in either the JSON body or the
query string, and a `/download` request missing url or format_id, return
HTTP 400 with a JSON error body and never invoke the extraction engine
(for `/download`, no scratch directory is created either). -/
theorem C5_missing_params_rejected :
    (∀ engine : EngineResult,
      fetch_info none none engine
        = ({ status := 400, body := .errorBody "Missing \x27url\x27 parameter" },
           false)) ∧
    (∀ (fid fn ao : Option String) (env : DownloadEnv),
      download none fid fn ao env
        = ({ status := 400,
             body := .errorBody
               "Missing \x27url\x27 or \x27format_id\x27 query parameters" },
           noDState)) ∧
    (∀ (url fn ao : Option String) (env : DownloadEnv),
      download url none fn ao env
        = ({ status := 400,
             body := .errorBody
               "Missing \x27url\x27 or \x27format_id\x27 query parameters" },
           noDState)) := by
  refine ⟨fun engine => ?_, fun fid fn ao env => ?_, fun url fn ao env => ?_⟩
  · simp [fetch_info, pyOrOpt, pyTruthy]
  · simp [download, pyTruthy]
  · simp [download, pyTruthy]

/-- C7 counterexample: the request of the spec's example (`format_id =
"bestaudio"`, no filename, no audio_only, title "My Clip") is NOT served as
"My Clip.mp3": `secure_filename` replaces the space by an underscore. -/
theorem C7_counterexample :
    (download (some "https://example.test/watch?v=abc") (some "bestaudio") none none
        exEnvOk).1.body
      ≠ Body.fileBody "My Clip.mp3" := by
  decide

/-- C7 (amended): for the spec's example request the response is a 200 file
attachment named "My_Clip.mp3" (the space of the title becomes an
underscore). -/
theorem C7_example_download_name :
    (download (some "https://example.test/watch?v=abc") (some "bestaudio") none none
        exEnvOk).1
      = { status := 200, body := Body.fileBody "My_Clip.mp3" } := by
  decide

/-- C8: the single audio entry of the advertised catalog has selector exactly
"bestaudio", the sentinel the `/download` handler compares against; sending
that selector forces the engine format to "bestaudio", attaches the
`FFmpegExtractAudio` postprocessor, and any file served ends in ".mp3". -/
theorem C8_audio_selector_roundtrip (info : ExtractInfo)
    (url fn ao : Option String) (env : DownloadEnv) (name : String)
    (hurl : pyTruthy url = true) :
    ((build_format_options info).filter (fun f => f.type == "audio")).map
        (fun f => f.id) = ["bestaudio"] ∧
    (download url (some "bestaudio") fn ao env).2.engineFormat = some "bestaudio" ∧
    (download url (some "bestaudio") fn ao env).2.postprocessorKey
      = some "FFmpegExtractAudio" ∧
    ((download url (some "bestaudio") fn ao env).1.body = Body.fileBody name →
      ∃ b : String, name = b ++ ".mp3") := by
  refine ⟨?_, ?_, ?_, ?_⟩
  · rw [show build_format_options info
        = build_format_options ⟨none, none, none, none, none⟩ from rfl]
    decide
  · have hg : (pyTruthy url && pyTruthy (some "bestaudio")) = true := by
      rw [hurl]; decide
    simp [download, hg]
  · have hg : (pyTruthy url && pyTruthy (some "bestaudio")) = true := by
      rw [hurl]; decide
    simp [download, hg]
  · intro h
    obtain ⟨t, ht⟩ := download_fileBody_shape url (some "bestaudio") fn ao env name h
    have hcond : (audio_only_truthy ao || some "bestaudio" == some "bestaudio") = true := by
      simp
    rw [hcond] at ht
    exact ⟨derive_base fn t, by rw [ht]; rfl⟩

/-- Witness for C8 at the example request. -/
theorem C8_witness :
    (download (some "https://example.test/watch?v=abc") (some "bestaudio") none none
        exEnvOk).2.engineFormat = some "bestaudio" ∧
    ∃ b : String, "My_Clip.mp3" = b ++ ".mp3" :=
  have h := C8_audio_selector_roundtrip exInfo (some "https://example.test/watch?v=abc")
    none none exEnvOk "My_Clip.mp3" (by decide)
  ⟨h.2.1, h.2.2.2 (by decide)⟩

/-- C9: the `audio_only` flag is truthy exactly when the parameter's value,
lowercased, is "1", "true" or "yes"; an absent parameter, "0" or "on" is
false, and with a non-sentinel `format_id` the mp3 path is taken exactly when
the flag is truthy. -/
theorem C9_audio_only_flag_semantics (v url fn : Option String) (env : DownloadEnv)
    (hurl : pyTruthy url = true) :
    (audio_only_truthy v = true ↔
      (pyLower (v.getD "") = "1" ∨ pyLower (v.getD "") = "true" ∨
        pyLower (v.getD "") = "yes")) ∧
    audio_only_truthy none = false ∧
    audio_only_truthy (some "0") = false ∧
    audio_only_truthy (some "on") = false ∧
    audio_only_truthy (some "TRUE") = true ∧
    ((download url (some "fmt") fn v env).2.postprocessorKey
        = some "FFmpegExtractAudio" ↔ audio_only_truthy v = true) := by
  have hg : (pyTruthy url && pyTruthy (some "fmt")) = true := by
    rw [hurl]; decide
  have hbe : (some "fmt" == some "bestaudio") = false := by decide
  refine ⟨?_, by decide, by decide, by decide, by decide, ?_⟩
  · simp [audio_only_truthy]
    exact or_assoc
  · cases haud : audio_only_truthy v
    · simp [download, hg, haud, hbe]
    · simp [download, hg, haud, hbe]

/-- Witness for C9 at concrete flag values. -/
theorem C9_witness :
    audio_only_truthy (some "TRUE") = true ∧
    ((download (some "u") (some "fmt") none (some "yes") exEnvOk).2.postprocessorKey
        = some "FFmpegExtractAudio" ↔ audio_only_truthy (some "yes") = true) :=
  have h := C9_audio_only_flag_semantics (some "yes") (some "u") none exEnvOk (by decide)
  ⟨h.2.2.2.2.1, h.2.2.2.2.2⟩

/-- Concrete environment fixture: engine succeeds with an absent title and
the predicted filename is missing, so the handler serves the single file
found by the directory-listing fallback. -/
def exEnvFallback : DownloadEnv where
  engine := .ok ⟨none, none, none, none, none⟩
  preparedExists := false
  tempFiles := ["out.webm"]
  rmtreeFails := false

/-- C10: every successful `/download` with no filename parameter and an
absent, null or empty engine title — whether served via the predicted path
or the directory-listing fallback — carries an attachment named "video.mp4"
or "video.mp3" according to the chosen transcode path. -/
theorem C10_title_fallback_video (url fid ao : Option String) (env : DownloadEnv)
    (info : ExtractInfo) (name : String)
    (heng : env.engine = .ok info)
    (htitle : info.title = none ∨ info.title = some "")
    (h : (download url fid none ao env).1.body = Body.fileBody name) :
    name = (if audio_only_truthy ao || fid == some "bestaudio"
        then "video.mp3" else "video.mp4") := by
  obtain ⟨eng, pe, tf, rf⟩ := env
  have heng' : eng = .ok info := heng
  subst heng'
  have hbase1 : derive_base none none = "video" := by decide
  have hbase2 : derive_base none (some "") = "video" := by decide
  simp only [download] at h
  split at h
  · exact absurd h (by simp)
  · split at h
    · exact absurd h (by simp)
    · have hname := ((Body.fileBody.injEq _ _).mp h).symm
      rcases htitle with ht | ht <;>
        cases hcond : (audio_only_truthy ao || fid == some "bestaudio") <;>
          rw [hname] <;> simp [hcond, ht, hbase1, hbase2]

/-- Witness for C10: a fallback-served success with empty title on the video
path yields "video.mp4". -/
theorem C10_witness :
    (download (some "u") (some "f") none none exEnvFallback).1.body
      = Body.fileBody "video.mp4" ∧
    "video.mp4" = (if audio_only_truthy none || (some "f" : Option String) == some "bestaudio"
        then "video.mp3" else "video.mp4") :=
  ⟨by decide,
   C10_title_fallback_video (some "u") (some "f") none exEnvFallback
     ⟨none, none, none, none, none⟩ "video.mp4" rfl (Or.inl rfl) (by decide)⟩
